import Mathlib

/-! Verification development for the python-epsg repository.

The definitions in this file are a shallow embedding of `epsg/load.py`
(the XML identifier index and the memoizing graph loader), `epsg/schema.py`
(the attribute validators attached via SQLAlchemy events) and the mapping
interface of `Registry` in `epsg/__init__.py`.  XML documents are modelled
as ordered trees of elements, text nodes and comments; Python exceptions
are modelled by an explicit error type; the loader's mutable memo
(`XMLLoader.objects`) is modelled by threading an explicit state, with
object identity rendered by allocation ids; recursion is bounded by a fuel
parameter (`resolve` with fuel `0` yields the artificial outcome `oom`,
"out of fuel", which stands for a computation that has not finished within
that recursion budget).
-/

namespace EPSG

mutual
/-- An XML DOM node: an element with a tag name, attributes and ordered
children; a text node; or a comment.  Attribute nodes are not child nodes
(matching `xml.dom.minidom`).  The children are a `NodeList` (a mutual
list type, keeping every traversal structurally recursive). -/
inductive Node where
  | element (tag : String) (attrs : List (String × String)) (children : NodeList)
  | text (data : String)
  | comment (data : String)

/-- An ordered list of sibling nodes. -/
inductive NodeList where
  | nil
  | cons (head : Node) (tail : NodeList)
end

/-- A `NodeList` from a plain list (for writing fixtures). -/
def nl : List Node → NodeList
  | [] => .nil
  | n :: rest => .cons n (nl rest)

/-- Whether a node list is empty. -/
def NodeList.isNil : NodeList → Bool
  | .nil => true
  | .cons _ _ => false

/-- The child nodes of a node: `childNodes` in minidom.  Text nodes and
comments have none. -/
def Node.childNodes : Node → NodeList
  | .element _ _ cs => cs
  | _ => .nil

/-- Models `node.hasChildNodes()`. -/
def Node.hasChildNodes (n : Node) : Bool :=
  !n.childNodes.isNil

/-- The characters after the first colon. -/
def afterColon : List Char → List Char
  | [] => []
  | ':' :: cs => cs
  | _ :: cs => afterColon cs

/-- The part of a tag name after the namespace prefix, `element.localName`
in minidom: the substring after the colon separating prefix and local
part, or the whole tag when it has no prefix. -/
def localName (tag : String) : String :=
  if tag.data.contains ':' then ⟨afterColon tag.data⟩ else tag

/-- Models `element.localName` of a node (only elements have one; text and
comments yield the empty string, which dispatches to no loader). -/
def Node.localName : Node → String
  | .element t _ _ => EPSG.localName t
  | _ => ""

/-- Association-list lookup, the model of Python `dict[key]` returning
`none` for `KeyError`. -/
def assocGet {κ α : Type} [DecidableEq κ] : List (κ × α) → κ → Option α
  | [], _ => none
  | (k, v) :: rest, key => if k = key then some v else assocGet rest key

/-- Association-list update, the model of Python `dict[key] = value`: an
existing binding is overwritten in place, a new key is appended. -/
def assocSet {κ α : Type} [DecidableEq κ] : List (κ × α) → κ → α → List (κ × α)
  | [], key, v => [(key, v)]
  | (k, w) :: rest, key, v =>
    if k = key then (key, v) :: rest else (k, w) :: assocSet rest key v

/-- Models `element.attributes[name]`, as an option: `none` models the `KeyError`
for a missing attribute (handled at each use site just as the Python code
catches or propagates it). -/
def Node.getAttribute? (n : Node) (name : String) : Option String :=
  match n with
  | .element _ attrs _ => assocGet attrs name
  | _ => none

/-- Python whitespace as `str.strip` removes it (ASCII subset). -/
def isPySpace (c : Char) : Bool :=
  c == ' ' || c == '\t' || c == '\n' || c == '\r' || c == '\x0b' || c == '\x0c'

/-- The character list of a string with leading and trailing whitespace
removed: the model of Python `str.strip()`. -/
def stripChars (l : List Char) : List Char :=
  (l.dropWhile isPySpace).rdropWhile isPySpace

/-- Python `str.strip()`. -/
def pyStrip (s : String) : String :=
  ⟨stripChars s.data⟩

/-- Python `''.join(...)`. -/
def sconcat (l : List String) : String :=
  ⟨(l.map String.data).flatten⟩

mutual
/-- The text piece contributed by one child in the loop of `getText`
(`load.py`, lines 13-18): a text node contributes its data; a child with
child nodes of its own contributes its own `getText` (note: already
stripped); every other child contributes nothing. -/
def getTextPart : Node → List String
  | Node.text d => [d]
  | Node.comment _ => []
  | Node.element _ _ kids =>
    if kids.isNil then [] else [pyStrip (sconcat (getTextPartsL kids))]

/-- The text pieces collected over a child list. -/
def getTextPartsL : NodeList → List String
  | .nil => []
  | .cons c cs => getTextPart c ++ getTextPartsL cs
end

/-- Models `getText(node)` from `load.py`: joins the pieces collected over the
node's children and strips the result. -/
def getText (n : Node) : String :=
  pyStrip (sconcat (getTextPartsL n.childNodes))

mutual
/-- The contribution of one node to `getElementsByTagName(name)`: itself
when its tag matches, followed by its matching descendants, in document
(preorder) order, matching minidom's search of the whole subtree. -/
def elemsByTag (name : String) : Node → List Node
  | Node.element t a kids =>
    (if t = name then [Node.element t a kids] else []) ++ elemsByTagL name kids
  | _ => []

/-- Models `getElementsByTagName(name)` over a list of sibling nodes. -/
def elemsByTagL (name : String) : NodeList → List Node
  | .nil => []
  | .cons c cs => elemsByTag name c ++ elemsByTagL name cs
end

/-- Models `node.getElementsByTagName(name)`: descendant elements of `n` with tag
`name`, in document order (the node itself is not included, as in DOM). -/
def Node.getElementsByTagName (n : Node) (name : String) : List Node :=
  elemsByTagL name n.childNodes

mutual
/-- The `(urn, defining element)` pairs scanned by `XML.createMapping`
(`load.py`, lines 37-46) under one node whose parent is `parent`: for
every descendant element with tag `identifier`, in document order, the
pair of its text content and its parent element (`element.parentNode`). -/
def idPairs (parent : Node) : Node → List (String × Node)
  | Node.element t a kids =>
    (if t = "identifier" then [(getText (Node.element t a kids), parent)] else [])
      ++ idPairsL (Node.element t a kids) kids
  | _ => []

/-- The identifier scan of a child list whose parent is `parent`. -/
def idPairsL (parent : Node) : NodeList → List (String × Node)
  | .nil => []
  | .cons c cs => idPairs parent c ++ idPairsL parent cs
end

/-- The identifier scan of a whole document node. -/
def identifierPairs (dom : Node) : List (String × Node) :=
  idPairsL dom dom.childNodes

/-- Models `XML.createMapping`: folds the identifier scan into a dictionary, so
a urn appearing twice keeps the parent of the later occurrence. -/
def createMapping (dom : Node) : List (String × Node) :=
  (identifierPairs dom).foldl (fun m p => assocSet m p.1 p.2) []

/-- Models `XML.__getitem__`: dictionary lookup in the mapping. -/
def xmlLookup (dom : Node) (key : String) : Option Node :=
  assocGet (createMapping dom) key

/-- Models `XML.keys()`: the keys of the mapping (insertion order). -/
def xmlKeys (dom : Node) : List String :=
  (createMapping dom).map Prod.fst

/-! Section: The schema value model (`epsg/schema.py`) -/

/-- A calendar date, the model of `datetime.date`. -/
structure PyDate where
  year : Nat
  month : Nat
  day : Nat
deriving DecidableEq, Repr

/-- Python exceptions the embedded code can raise. -/
inductive PyErr where
  | keyError
  | typeError
  | valueError
  | indexError
deriving DecidableEq, Repr

/-- A Python value as it can occur in a schema attribute or be passed to a
validator or mapping operation.  Object references to other schema
entities are rendered by their allocation id (`obj`); lists of references
(`axes`, `componentReferenceSystems`) by `objList`. -/
inductive PyVal where
  | none
  | str (s : String)
  | int (n : Int)
  | float (q : Rat)
  | date (d : PyDate)
  | datetime (d : PyDate) (hour minute second : Nat)
  | obj (i : Nat)
  | objList (is : List Nat)
deriving DecidableEq, Repr

/-- Models `some s` as a Python string, `none` as Python `None` (the result shape
of `getFirstChildNodeText`). -/
def optStr : Option String → PyVal
  | Option.none => PyVal.none
  | Option.some s => PyVal.str s

/-- Value of a nonempty digit run. -/
def digitsVal (cs : List Char) : Nat :=
  cs.foldl (fun a c => a * 10 + (c.toNat - 48)) 0

/-- Whether every character of the run is a decimal digit. -/
def allDigits (cs : List Char) : Bool :=
  cs.all (fun c => c.isDigit)

/-- An optional leading sign: `(negative?, rest)`. -/
def parseSign : List Char → Bool × List Char
  | '-' :: cs => (true, cs)
  | '+' :: cs => (false, cs)
  | cs => (false, cs)

/-- The numeric value of a decimal float literal, or `none` when the text
is not one: the model of Python `float(string)` for finite decimal
literals (optional sign, digits around an optional point, optional
exponent, surrounding whitespace allowed).  The value is kept exact as a
rational; the claims under check concern which inputs coerce, not binary
rounding. -/
def parseFloatString? (s : String) : Option Rat :=
  let cs := stripChars s.data
  let (neg, cs) := parseSign cs
  let (mant, expPart) := cs.span (fun c => c != 'e' && c != 'E')
  let (ip, dotPart) := mant.span (fun c => c != '.')
  let fp := match dotPart with
    | [] => ([] : List Char)
    | _ :: rest => rest
  if !(allDigits ip && allDigits fp && !(ip.isEmpty && fp.isEmpty)
        && (dotPart.isEmpty || dotPart.head? = some '.')) then
    Option.none
  else
    let base : Rat := (digitsVal ip : Rat) + (digitsVal fp : Rat) / ((10 : Rat) ^ fp.length)
    match expPart with
    | [] => Option.some (if neg then -base else base)
    | _ :: ecs =>
      let (eneg, ecs) := parseSign ecs
      if !allDigits ecs || ecs.isEmpty then Option.none
      else
        let e : Int := if eneg then -(digitsVal ecs : Int) else (digitsVal ecs : Int)
        let q := base * (10 : Rat) ^ e
        Option.some (if neg then -q else q)

/-- Python `float(value)`: numbers convert, numeric-literal strings parse
(a failure there is a `ValueError`), everything else is a `TypeError`. -/
def pyFloat : PyVal → Except PyErr Rat
  | .float q => .ok q
  | .int n => .ok (n : Rat)
  | .str s =>
    match parseFloatString? s with
    | Option.some q => .ok q
    | Option.none => .error .valueError
  | _ => .error .typeError

/-- Models `_validate_float` (`schema.py`, lines 78-87): `return float(value)`,
with a `TypeError` suppressed exactly when the value is `None` (which is
then returned unchanged); every other failure propagates. -/
def validate_float (value : PyVal) : Except PyErr PyVal :=
  match pyFloat value with
  | .ok q => .ok (.float q)
  | .error .typeError => if value = .none then .ok value else .error .typeError
  | .error e => .error e

/-- Days per month as `datetime` validates them. -/
def daysInMonth (y m : Nat) : Nat :=
  if m = 2 then
    if y % 4 = 0 && (y % 100 != 0 || y % 400 = 0) then 29 else 28
  else if m = 4 || m = 6 || m = 9 || m = 11 then 30
  else 31

/-- The split of a character list on a separator (the shape of Python
`str.split(sep)`). -/
def splitOnChar (sep : Char) : List Char → List (List Char)
  | [] => [[]]
  | c :: cs =>
    let rest := splitOnChar sep cs
    if c = sep then [] :: rest
    else
      match rest with
      | [] => [[c]]
      | r :: rs => (c :: r) :: rs

/-- Models `datetime.datetime.strptime(value, '%Y-%m-%d').date()` as an option:
three dash-separated digit runs forming a valid calendar date. -/
def parseDate? (s : String) : Option PyDate :=
  match splitOnChar '-' s.data with
  | [ys, ms, ds] =>
    if allDigits ys && allDigits ms && allDigits ds
        && !ys.isEmpty && !ms.isEmpty && !ds.isEmpty then
      let y := digitsVal ys
      let m := digitsVal ms
      let d := digitsVal ds
      if 1 ≤ m && m ≤ 12 && 1 ≤ d && d ≤ daysInMonth y m && 1 ≤ y && y ≤ 9999 then
        Option.some ⟨y, m, d⟩
      else Option.none
    else Option.none
  | _ => Option.none

/-- Models `_validate_date` (`schema.py`, lines 61-76): a datetime is truncated to
its date, a date or `None` passes unchanged, a string is parsed as
`YYYY-MM-DD` (failure there is strptime's `ValueError`), anything else is
a `TypeError`. -/
def validate_date (value : PyVal) : Except PyErr PyVal :=
  match value with
  | .datetime d _ _ _ => .ok (.date d)
  | .date _ => .ok value
  | .none => .ok value
  | .str s =>
    match parseDate? s with
    | Option.some d => .ok (.date d)
    | Option.none => .error .valueError
  | _ => .error .typeError

/-- The attributes `schema.py` attaches `_validate_float` to by
`event.listen(..., 'set', _validate_float, ...)` (lines 192-211): the
attribute names are unique across the schema, so the validator of an
assignment is determined by the attribute name. -/
def floatFields : List String :=
  ["greenwichLongitude", "westBoundLongitude", "eastBoundLongitude",
   "southBoundLatitude", "northBoundLatitude",
   "semiMajorAxis", "semiMinorAxis", "inverseFlattening"]

/-- The validator fired by assigning `value` to the named attribute:
`_validate_float` on the float columns, `_validate_date` on
`realizationEpoch` (line 215), the identity elsewhere. -/
def applyValidators (field : String) (value : PyVal) : Except PyErr PyVal :=
  if field ∈ floatFields then validate_float value
  else if field = "realizationEpoch" then validate_date value
  else .ok value

/-- A schema object instance: its concrete class name (the polymorphic
identity `MetaBase` derives from the class name) and its attribute
dictionary. -/
structure Entity where
  cls : String
  attrs : List (String × PyVal)
deriving DecidableEq, Repr

/-- Attribute assignment `instance.field = value`: the attached validator
runs first and its result (or failure) is stored (SQLAlchemy `set` event
with `retval=True`). -/
def Entity.setAttr (e : Entity) (field : String) (value : PyVal) : Except PyErr Entity :=
  match applyValidators field value with
  | .ok v => .ok { e with attrs := assocSet e.attrs field v }
  | .error er => .error er

/-- Attribute read. -/
def Entity.getAttr? (e : Entity) (field : String) : Option PyVal :=
  assocGet e.attrs field

/-- Models `Identifier.__init__` (for `CoordinateSystemAxis`). -/
def mkIdentifierEnt (cls : String) (identifier : PyVal) : Entity :=
  ⟨cls, [("identifier", identifier)]⟩

/-- Models `DictionaryEntry.__init__`. -/
def mkDictionaryEntry (cls : String) (identifier name : PyVal) : Entity :=
  ⟨cls, [("identifier", identifier), ("name", name)]⟩

/-! Section: The graph loader (`XMLLoader` in `epsg/load.py`) -/

/-- The loader's mutable state: the memo `self.objects` (urn to allocation
id), the allocated entities, and the next fresh id.  Allocation ids model
Python object identity: two results are the identical object exactly when
they carry the same id. -/
structure LoaderState where
  objects : List (String × Nat)
  heap : List (Nat × Entity)
  nextId : Nat
deriving DecidableEq, Repr

/-- The state of a fresh `XMLLoader`. -/
def initState : LoaderState :=
  ⟨[], [], 0⟩

/-- The outcome of a loader step: a value with the state after it, a
raised Python exception with the state at the raise (mutations made before
the raise persist, as they do in Python), or fuel exhaustion (`oom`, an
artefact of the bounded embedding standing for a computation that has not
finished within the given recursion budget). -/
inductive LRes (α : Type) where
  | ok (a : α) (s : LoaderState)
  | err (e : PyErr) (s : LoaderState)
  | oom (s : LoaderState)
deriving DecidableEq, Repr

/-- Sequencing of loader steps: exceptions and fuel exhaustion propagate. -/
def LRes.bind {α β : Type} : LRes α → (α → LoaderState → LRes β) → LRes β
  | .ok a s, f => f a s
  | .err e s, _ => .err e s
  | .oom s, _ => .oom s

/-- Attribute assignment inside a loader rule, threading the state. -/
def setA (e : Entity) (field : String) (value : PyVal) (s : LoaderState) : LRes Entity :=
  match e.setAttr field value with
  | .ok e2 => .ok e2 s
  | .error er => .err er s

/-- Models `XMLLoader.getFirstChildNodeText` (`load.py`, lines 157-161): text of
the first matching descendant, `None` when there is none. -/
def getFirstChildNodeText (node : Node) (childName : String) : Option String :=
  (node.getElementsByTagName childName).head?.map getText

/-- Models `XMLLoader.getFirstChildAttributeValue` (lines 163-167): the named
attribute of the first matching descendant, `None` when the element or the
attribute is missing. -/
def getFirstChildAttributeValue (node : Node) (childName attributeName : String) :
    Option String :=
  match (node.getElementsByTagName childName).head? with
  | Option.none => Option.none
  | Option.some c => c.getAttribute? attributeName

/-- Models `XMLLoader.getIdentifier`. -/
def getIdentifier (element : Node) : Option String :=
  getFirstChildNodeText element "identifier"

/-- Models `self[value]` inside a rule, where `value` came from
`getFirstChildAttributeValue` and may be `None`: `self.objects[None]` and
`self.xml[None]` both raise `KeyError`, so a missing reference attribute
surfaces as `KeyError` before any resolution is attempted. -/
def resolveOpt (r : String → LoaderState → LRes Nat) :
    Option String → LoaderState → LRes Nat
  | Option.none, s => .err .keyError s
  | Option.some u, s => r u s

/-- Models `XMLLoader.loadDictionaryEntry` (lines 180-189).  The construction
rules take the recursive resolver `r` (`self.__getitem__`) as a
parameter. -/
def loadDictionaryEntry (cls : String) (element : Node) (s : LoaderState) : LRes Entity :=
  let identifier := optStr (getIdentifier element)
  let name := optStr (getFirstChildNodeText element "name")
  LRes.bind (setA (mkDictionaryEntry cls identifier name) "remarks"
      (optStr (getFirstChildNodeText element "remarks")) s) fun inst s =>
  LRes.bind (setA inst "anchorDefinition"
      (optStr (getFirstChildNodeText element "anchorDefinition")) s) fun inst s =>
  setA inst "informationSource"
      (optStr (getFirstChildNodeText element "epsg:informationSource")) s

/-- Models `XMLLoader.loadDatum` (lines 191-197) as executed through its
decorators: the raw body (dictionary entry plus `realizationEpoch`) runs
first, then `addDomainOfValidity`, then `addScope`, then `addType`. -/
def loadDatum (r : String → LoaderState → LRes Nat) (cls : String) (element : Node)
    (s : LoaderState) : LRes Entity :=
  LRes.bind (loadDictionaryEntry cls element s) fun inst s =>
  LRes.bind (setA inst "realizationEpoch"
      (optStr (getFirstChildNodeText element "realizationEpoch")) s) fun inst s =>
  LRes.bind (resolveOpt r
      (getFirstChildAttributeValue element "domainOfValidity" "xlink:href") s) fun i s =>
  LRes.bind (setA inst "domainOfValidity" (.obj i) s) fun inst s =>
  LRes.bind (setA inst "scope" (optStr (getFirstChildNodeText element "scope")) s) fun inst s =>
  setA inst "type" (optStr (getFirstChildNodeText element "epsg:type")) s

/-- Models `XMLLoader.loadGeodeticDatum` (lines 199-203). -/
def loadGeodeticDatum (r : String → LoaderState → LRes Nat) (element : Node)
    (s : LoaderState) : LRes Entity :=
  LRes.bind (loadDatum r "GeodeticDatum" element s) fun inst s =>
  LRes.bind (resolveOpt r
      (getFirstChildAttributeValue element "primeMeridian" "xlink:href") s) fun i s =>
  LRes.bind (setA inst "primeMeridian" (.obj i) s) fun inst s =>
  LRes.bind (resolveOpt r
      (getFirstChildAttributeValue element "ellipsoid" "xlink:href") s) fun i s =>
  setA inst "ellipsoid" (.obj i) s

/-- Models `XMLLoader.loadVerticalDatum`. -/
def loadVerticalDatum (r : String → LoaderState → LRes Nat) (element : Node)
    (s : LoaderState) : LRes Entity :=
  loadDatum r "VerticalDatum" element s

/-- Models `XMLLoader.loadEngineeringDatum`. -/
def loadEngineeringDatum (r : String → LoaderState → LRes Nat) (element : Node)
    (s : LoaderState) : LRes Entity :=
  loadDatum r "EngineeringDatum" element s

/-- Models `XMLLoader.loadEllipsoid` (lines 211-218); the float validator fires on
the axis and flattening assignments. -/
def loadEllipsoid (element : Node) (s : LoaderState) : LRes Entity :=
  LRes.bind (loadDictionaryEntry "Ellipsoid" element s) fun inst s =>
  LRes.bind (setA inst "semiMajorAxis"
      (optStr (getFirstChildNodeText element "semiMajorAxis")) s) fun inst s =>
  LRes.bind (setA inst "semiMinorAxis"
      (optStr (getFirstChildNodeText element "semiMinorAxis")) s) fun inst s =>
  LRes.bind (setA inst "inverseFlattening"
      (optStr (getFirstChildNodeText element "inverseFlattening")) s) fun inst s =>
  setA inst "isSphere" (optStr (getFirstChildNodeText element "isSphere")) s

/-- Models `XMLLoader.loadPrimeMeridian` (lines 220-224). -/
def loadPrimeMeridian (element : Node) (s : LoaderState) : LRes Entity :=
  LRes.bind (loadDictionaryEntry "PrimeMeridian" element s) fun inst s =>
  setA inst "greenwichLongitude"
      (optStr (getFirstChildNodeText element "greenwichLongitude")) s

/-- Models `XMLLoader.loadAreaOfUse` (lines 226-234). -/
def loadAreaOfUse (element : Node) (s : LoaderState) : LRes Entity :=
  LRes.bind (loadDictionaryEntry "AreaOfUse" element s) fun inst s =>
  LRes.bind (setA inst "description"
      (optStr (getFirstChildNodeText element "gmd:description")) s) fun inst s =>
  LRes.bind (setA inst "westBoundLongitude"
      (optStr (getFirstChildNodeText element "gmd:westBoundLongitude")) s) fun inst s =>
  LRes.bind (setA inst "eastBoundLongitude"
      (optStr (getFirstChildNodeText element "gmd:eastBoundLongitude")) s) fun inst s =>
  LRes.bind (setA inst "southBoundLatitude"
      (optStr (getFirstChildNodeText element "gmd:southBoundLatitude")) s) fun inst s =>
  setA inst "northBoundLatitude"
      (optStr (getFirstChildNodeText element "gmd:northBoundLatitude")) s

/-- Models `XMLLoader.loadCoordinateReferenceSystem` (lines 236-241) through its
decorators: dictionary entry, then `domainOfValidity`, `scope`, `type`. -/
def loadCoordinateReferenceSystem (r : String → LoaderState → LRes Nat) (cls : String)
    (element : Node) (s : LoaderState) : LRes Entity :=
  LRes.bind (loadDictionaryEntry cls element s) fun inst s =>
  LRes.bind (resolveOpt r
      (getFirstChildAttributeValue element "domainOfValidity" "xlink:href") s) fun i s =>
  LRes.bind (setA inst "domainOfValidity" (.obj i) s) fun inst s =>
  LRes.bind (setA inst "scope" (optStr (getFirstChildNodeText element "scope")) s) fun inst s =>
  setA inst "type" (optStr (getFirstChildNodeText element "epsg:type")) s

/-- Models `XMLLoader.loadCoordinateSystemAxis` (lines 243-250). -/
def loadCoordinateSystemAxis (r : String → LoaderState → LRes Nat) (element : Node)
    (s : LoaderState) : LRes Entity :=
  let identifier := optStr (getIdentifier element)
  LRes.bind (setA (mkIdentifierEnt "CoordinateSystemAxis" identifier) "axisAbbrev"
      (optStr (getFirstChildNodeText element "axisAbbrev")) s) fun inst s =>
  LRes.bind (setA inst "axisDirection"
      (optStr (getFirstChildNodeText element "axisDirection")) s) fun inst s =>
  LRes.bind (resolveOpt r
      (getFirstChildAttributeValue element "descriptionReference" "xlink:href") s) fun i s =>
  setA inst "descriptionReference" (.obj i) s

/-- Models `XMLLoader.loadAxisName` (lines 252-255). -/
def loadAxisName (element : Node) (s : LoaderState) : LRes Entity :=
  LRes.bind (loadDictionaryEntry "AxisName" element s) fun inst s =>
  setA inst "description" (optStr (getFirstChildNodeText element "description")) s

/-- The axis loop of `XMLLoader.loadCoordinateSystem` (lines 260-265): for
each `axis` descendant, take its first `identifier` descendant (a missing
one is the `IndexError` of `[0]`), read its text and resolve it. -/
def loadAxes (r : String → LoaderState → LRes Nat) :
    List Node → LoaderState → LRes (List Nat)
  | [], s => .ok [] s
  | axisNode :: rest, s =>
    match (axisNode.getElementsByTagName "identifier").head? with
    | Option.none => .err .indexError s
    | Option.some node =>
      LRes.bind (r (getText node) s) fun i s =>
      LRes.bind (loadAxes r rest s) fun is s =>
      .ok (i :: is) s

/-- Models `XMLLoader.loadCoordinateSystem` (lines 257-267) through `addType`:
dictionary entry, the ordered axis loop, then `type`. -/
def loadCoordinateSystem (r : String → LoaderState → LRes Nat) (cls : String)
    (element : Node) (s : LoaderState) : LRes Entity :=
  LRes.bind (loadDictionaryEntry cls element s) fun inst s =>
  LRes.bind (loadAxes r (element.getElementsByTagName "axis") s) fun axes s =>
  LRes.bind (setA inst "axes" (.objList axes) s) fun inst s =>
  setA inst "type" (optStr (getFirstChildNodeText element "epsg:type")) s

/-- Models `XMLLoader.loadGeodeticCRS` (lines 281-286). -/
def loadGeodeticCRS (r : String → LoaderState → LRes Nat) (element : Node)
    (s : LoaderState) : LRes Entity :=
  LRes.bind (loadCoordinateReferenceSystem r "GeodeticCRS" element s) fun inst s =>
  LRes.bind (resolveOpt r
      (getFirstChildAttributeValue element "geodeticDatum" "xlink:href") s) fun i s =>
  LRes.bind (setA inst "geodeticDatum" (.obj i) s) fun inst s =>
  LRes.bind (resolveOpt r
      (getFirstChildAttributeValue element "ellipsoidalCS" "xlink:href") s) fun i s =>
  setA inst "ellipsoidalCS" (.obj i) s

/-- Models `XMLLoader.loadProjectedCRS` (lines 288-292). -/
def loadProjectedCRS (r : String → LoaderState → LRes Nat) (element : Node)
    (s : LoaderState) : LRes Entity :=
  LRes.bind (loadCoordinateReferenceSystem r "ProjectedCRS" element s) fun inst s =>
  LRes.bind (resolveOpt r
      (getFirstChildAttributeValue element "baseGeodeticCRS" "xlink:href") s) fun i s =>
  LRes.bind (setA inst "baseGeodeticCRS" (.obj i) s) fun inst s =>
  LRes.bind (resolveOpt r
      (getFirstChildAttributeValue element "cartesianCS" "xlink:href") s) fun i s =>
  setA inst "cartesianCS" (.obj i) s

/-- Models `XMLLoader.loadVerticalCRS` (lines 294-298). -/
def loadVerticalCRS (r : String → LoaderState → LRes Nat) (element : Node)
    (s : LoaderState) : LRes Entity :=
  LRes.bind (loadCoordinateReferenceSystem r "VerticalCRS" element s) fun inst s =>
  LRes.bind (resolveOpt r
      (getFirstChildAttributeValue element "verticalDatum" "xlink:href") s) fun i s =>
  LRes.bind (setA inst "verticalDatum" (.obj i) s) fun inst s =>
  LRes.bind (resolveOpt r
      (getFirstChildAttributeValue element "verticalCS" "xlink:href") s) fun i s =>
  setA inst "verticalCS" (.obj i) s

/-- Models `XMLLoader.loadEngineeringCRS` (lines 300-304). -/
def loadEngineeringCRS (r : String → LoaderState → LRes Nat) (element : Node)
    (s : LoaderState) : LRes Entity :=
  LRes.bind (loadCoordinateReferenceSystem r "EngineeringCRS" element s) fun inst s =>
  LRes.bind (resolveOpt r
      (getFirstChildAttributeValue element "coordinateSystem" "xlink:href") s) fun i s =>
  LRes.bind (setA inst "coordinateSystem" (.obj i) s) fun inst s =>
  LRes.bind (resolveOpt r
      (getFirstChildAttributeValue element "engineeringDatum" "xlink:href") s) fun i s =>
  setA inst "engineeringDatum" (.obj i) s

/-- The component loop of `XMLLoader.loadCompoundCRS` (lines 308-313): the
`xlink:href` attribute is read with `attributes[...]`, so a missing one is
a `KeyError`. -/
def loadComponents (r : String → LoaderState → LRes Nat) :
    List Node → LoaderState → LRes (List Nat)
  | [], s => .ok [] s
  | node :: rest, s =>
    match node.getAttribute? "xlink:href" with
    | Option.none => .err .keyError s
    | Option.some urn =>
      LRes.bind (r urn s) fun i s =>
      LRes.bind (loadComponents r rest s) fun is s =>
      .ok (i :: is) s

/-- Models `XMLLoader.loadCompoundCRS` (lines 306-314). -/
def loadCompoundCRS (r : String → LoaderState → LRes Nat) (element : Node)
    (s : LoaderState) : LRes Entity :=
  LRes.bind (loadCoordinateReferenceSystem r "CompoundCRS" element s) fun inst s =>
  LRes.bind (loadComponents r
      (element.getElementsByTagName "componentReferenceSystem") s) fun comps s =>
  setA inst "componentReferenceSystems" (.objList comps) s

/-- Wraps a rule result for `loadElement`. -/
def LRes.withSome : LRes Entity → LRes (Option Entity)
  | .ok e s => .ok (Option.some e) s
  | .err e s => .err e s
  | .oom s => .oom s

/-- The self-dispatch loop entered when an element's local name is
`Element`: `getattr(self, 'loadElement')` finds `loadElement` itself, so
`loader(element)` re-runs the dispatch on the same element and state,
changing nothing per lap.  Each lap consumes one unit of recursion budget;
the loop never produces a value. -/
def loadElementSelfLoop : Nat → LoaderState → LRes (Option Entity)
  | 0, s => .oom s
  | fuel + 1, s => loadElementSelfLoop fuel s

/-- Models `XMLLoader.loadElement` (lines 169-175): `getattr(self, 'load' +
element.localName)` dispatch.  A local name with no `load...` method is the
caught `AttributeError`, yielding `None`.  The names `Datum`,
`CoordinateSystem` and `CoordinateReferenceSystem` do have methods, but
calling them without their `class_` argument raises `TypeError`; the empty
local name finds the method `load`, which takes no element and raises
`TypeError` as well; the local name `Element` finds `loadElement` itself
and the program recurses without bound — rendered by `loadElementSelfLoop`,
which consumes one unit of the `fuel` budget per self-dispatch lap (a lap
re-enters `loadElement` on the same element and state, changing nothing),
so for an `Element`-tagged element no budget ever suffices; every other
tag ignores the budget entirely. -/
def loadElement (r : String → LoaderState → LRes Nat) (fuel : Nat) (element : Node)
    (s : LoaderState) : LRes (Option Entity) :=
  match element.localName with
  | "DictionaryEntry" => (loadDictionaryEntry "DictionaryEntry" element s).withSome
  | "GeodeticDatum" => (loadGeodeticDatum r element s).withSome
  | "VerticalDatum" => (loadVerticalDatum r element s).withSome
  | "EngineeringDatum" => (loadEngineeringDatum r element s).withSome
  | "Ellipsoid" => (loadEllipsoid element s).withSome
  | "PrimeMeridian" => (loadPrimeMeridian element s).withSome
  | "AreaOfUse" => (loadAreaOfUse element s).withSome
  | "CoordinateSystemAxis" => (loadCoordinateSystemAxis r element s).withSome
  | "AxisName" => (loadAxisName element s).withSome
  | "EllipsoidalCS" => (loadCoordinateSystem r "EllipsoidalCS" element s).withSome
  | "CartesianCS" => (loadCoordinateSystem r "CartesianCS" element s).withSome
  | "VerticalCS" => (loadCoordinateSystem r "VerticalCS" element s).withSome
  | "SphericalCS" => (loadCoordinateSystem r "SphericalCS" element s).withSome
  | "GeodeticCRS" => (loadGeodeticCRS r element s).withSome
  | "ProjectedCRS" => (loadProjectedCRS r element s).withSome
  | "VerticalCRS" => (loadVerticalCRS r element s).withSome
  | "EngineeringCRS" => (loadEngineeringCRS r element s).withSome
  | "CompoundCRS" => (loadCompoundCRS r element s).withSome
  | "Datum" => .err .typeError s
  | "CoordinateSystem" => .err .typeError s
  | "CoordinateReferenceSystem" => .err .typeError s
  | "Element" => loadElementSelfLoop fuel s
  | "" => .err .typeError s
  | _ => .ok Option.none s

/-- Models `XMLLoader.__getitem__` (lines 128-140), with a fuel bound on the
recursion depth: return the memoized id if present; otherwise look the urn
up in the identifier index (a miss is `KeyError`), run the dispatched rule
(`None` from the dispatch is `KeyError`), and only then allocate the
entity and insert it into the memo. -/
def resolve (xml : Node) : Nat → String → LoaderState → LRes Nat
  | 0, _, s => .oom s
  | n + 1, key, s =>
    match assocGet s.objects key with
    | Option.some i => .ok i s
    | Option.none =>
      match xmlLookup xml key with
      | Option.none => .err .keyError s
      | Option.some element =>
        match loadElement (fun k s2 => resolve xml n k s2) n element s with
        | .ok Option.none s1 => .err .keyError s1
        | .ok (Option.some ent) s1 =>
          .ok s1.nextId
            ⟨assocSet s1.objects key s1.nextId,
             assocSet s1.heap s1.nextId ent, s1.nextId + 1⟩
        | .err e s1 => .err e s1
        | .oom s1 => .oom s1

/-- The loop of `XMLLoader.load` (lines 316-323) over a key list: each key
is resolved with the given budget and only `KeyError` is caught. -/
def loadAllGo (xml : Node) (fuel : Nat) : List String → LoaderState → LRes Unit
  | [], s => .ok () s
  | k :: ks, s =>
    match resolve xml fuel k s with
    | .ok _ s1 => loadAllGo xml fuel ks s1
    | .err .keyError s1 => loadAllGo xml fuel ks s1
    | .err e s1 => .err e s1
    | .oom s1 => .oom s1

/-- Models `XMLLoader.load`: iterate all keys of the identifier index. -/
def load (xml : Node) (fuel : Nat) (s : LoaderState) : LRes Unit :=
  loadAllGo xml fuel (xmlKeys xml) s

/-- The local names for which `getattr(self, 'load' + localName)` finds a
method of `XMLLoader`: the rule methods of `load.py`, plus `Element`
(found as `loadElement` itself) and the empty local name (found as the
bulk method `load`). -/
def hasLoadMethod (l : String) : Bool :=
  l ∈ ["DictionaryEntry", "Datum", "GeodeticDatum", "VerticalDatum", "EngineeringDatum",
       "Ellipsoid", "PrimeMeridian", "AreaOfUse", "CoordinateReferenceSystem",
       "CoordinateSystemAxis", "AxisName", "CoordinateSystem", "EllipsoidalCS",
       "CartesianCS", "VerticalCS", "SphericalCS", "GeodeticCRS", "ProjectedCRS",
       "VerticalCRS", "EngineeringCRS", "CompoundCRS", "Element", ""]

/-! Section: The Registry mapping boundary (`epsg/__init__.py`) -/

/-- A value passed to the registry mapping interface: a schema entity (an
instance of `schema.Identifier` or one of its subclasses) or a plain
non-schema value. -/
inductive RegValue where
  | entity (e : Entity)
  | plain (v : PyVal)
deriving DecidableEq, Repr

/-- The registry facade over its backing store, keyed by identifier. -/
structure Registry where
  store : List (String × Entity)
deriving DecidableEq, Repr

/-- Models `Registry.__getitem__` (`__init__.py`, lines 209-223): a non-string key
is rejected with `TypeError` before the store is consulted; for a string
key the store is queried by identifier and a miss is `KeyError`. -/
def Registry.getitem (reg : Registry) (key : PyVal) : Except PyErr Entity :=
  match key with
  | .str k =>
    match assocGet reg.store k with
    | Option.some v => .ok v
    | Option.none => .error .keyError
  | _ => .error .typeError

/-- Models `Registry.__setitem__` (lines 225-243): a non-string key raises
`TypeError` and a value that is not a schema entity raises `ValueError`,
both before the storage transaction starts; otherwise the existing key is
popped and the value merged in.  The pair returns the registry after the
call together with the outcome, so an error leaves the store unchanged. -/
def Registry.setitem (reg : Registry) (key : PyVal) (value : RegValue) :
    Registry × Except PyErr Unit :=
  match key with
  | .str k =>
    match value with
    | .entity e => (⟨(reg.store.filter (fun p => p.1 ≠ k)) ++ [(k, e)]⟩, .ok ())
    | .plain _ => (reg, .error .valueError)
  | _ => (reg, .error .typeError)

/-! Section: Specification-side definitions

These definitions follow the spec's words, for comparison with the
definitions translated from the source above. -/

mutual
/-- Specified from the spec's words for `getText`: the plain concatenation
of the descendant text nodes of one node, in document order (no per-level
trimming). -/
def allText : Node → String
  | Node.text d => d
  | Node.element _ _ kids => allTextL kids
  | Node.comment _ => ""

/-- The concatenation of all descendant text of a child list. -/
def allTextL : NodeList → String
  | .nil => ""
  | .cons c cs => allText c ++ allTextL cs
end

/-- The spec's reading of `getText`: "concatenates all descendant text
nodes of an XML element, recursively, trimming leading/trailing
whitespace" — a single trim of the full concatenation. -/
def getTextSpec (n : Node) : String :=
  pyStrip (allTextL n.childNodes)

/-- The axis reference urns of a coordinate-system element in document
order: for each `axis` descendant, the text of its first `identifier`
descendant (`none` when it has no identifier). -/
def axisUrns (element : Node) : List (Option String) :=
  (element.getElementsByTagName "axis").map
    (fun ax => ((ax.getElementsByTagName "identifier").head?).map getText)

/-- Sequential resolution of a list of optional urns in order (a missing
urn is the `IndexError` of the `[0]` indexing in the source's loop). -/
def resolveSeq (r : String → LoaderState → LRes Nat) :
    List (Option String) → LoaderState → LRes (List Nat)
  | [], s => .ok [] s
  | Option.none :: _, s => .err .indexError s
  | Option.some u :: us, s =>
    LRes.bind (r u s) fun i s =>
    LRes.bind (resolveSeq r us s) fun is s =>
    .ok (i :: is) s

mutual
/-- Erases attributes and comment contents from a node, keeping the
element structure and text nodes: used to state that `getText` reads
neither attribute values nor comment data. -/
def scrub : Node → Node
  | Node.element t _ kids => Node.element t [] (scrubL kids)
  | Node.text d => Node.text d
  | Node.comment _ => Node.comment ""

/-- Erases attributes and comment contents from a child list. -/
def scrubL : NodeList → NodeList
  | .nil => .nil
  | .cons c cs => .cons (scrub c) (scrubL cs)
end

mutual
/-- Whether a node is or contains a text node. -/
def hasText : Node → Bool
  | Node.text _ => true
  | Node.element _ _ kids => hasTextL kids
  | Node.comment _ => false

/-- Whether a child list contains a text node anywhere. -/
def hasTextL : NodeList → Bool
  | .nil => false
  | .cons c cs => hasText c || hasTextL cs
end

/-! Section: Concrete fixture documents -/

/-- A `PrimeMeridian` element (identifier `urn:pm`; its
`greenwichLongitude` child is left out of the fixture, so the attribute is
set to `None`, keeping the fixture free of rational arithmetic). -/
def pmEl : Node :=
  .element "PrimeMeridian" [] (nl [
    .element "identifier" [] (nl [.text "urn:pm"]),
    .element "name" [] (nl [.text "Greenwich"])])

/-- A `CoordinateSystemAxis` element with no `descriptionReference` child:
its required reference attribute is missing. -/
def badAxisEl : Node :=
  .element "CoordinateSystemAxis" [] (nl [
    .element "identifier" [] (nl [.text "urn:badaxis"])])

/-- A document holding one loadable `PrimeMeridian` and one
`CoordinateSystemAxis` whose required reference is missing. -/
def testDoc : Node :=
  .element "#document" [] (nl [.element "gml:Dictionary" [] (nl [pmEl, badAxisEl])])

/-- The loader state after successfully resolving `urn:pm` from
`testDoc`. -/
def pmState : LoaderState :=
  ⟨[("urn:pm", 0)],
   [(0, ⟨"PrimeMeridian",
     [("identifier", .str "urn:pm"), ("name", .str "Greenwich"),
      ("remarks", .none), ("anchorDefinition", .none),
      ("informationSource", .none), ("greenwichLongitude", .none)]⟩)],
   1⟩

/-- Axis element A of the cyclic document: its `descriptionReference`
points at `urn:b`. -/
def cycElA : Node :=
  .element "CoordinateSystemAxis" [] (nl [
    .element "identifier" [] (nl [.text "urn:a"]),
    .element "descriptionReference" [("xlink:href", "urn:b")] .nil])

/-- Axis element B of the cyclic document: its `descriptionReference`
points back at `urn:a`. -/
def cycElB : Node :=
  .element "CoordinateSystemAxis" [] (nl [
    .element "identifier" [] (nl [.text "urn:b"]),
    .element "descriptionReference" [("xlink:href", "urn:a")] .nil])

/-- A document in which entity A references B and B references A. -/
def cycDoc : Node :=
  .element "#document" [] (nl [.element "gml:Dictionary" [] (nl [cycElA, cycElB])])

/-- An `AxisName` element shared by both axes of the coordinate-system
fixture. -/
def axisNameEl : Node :=
  .element "AxisName" [] (nl [
    .element "identifier" [] (nl [.text "urn:axisname"]),
    .element "name" [] (nl [.text "Easting or northing"])])

/-- The east axis reference, first in document order. -/
def axisE : Node :=
  .element "axis" [] (nl [
    .element "CoordinateSystemAxis" [] (nl [
      .element "identifier" [] (nl [.text "urn:axis:e"]),
      .element "axisAbbrev" [] (nl [.text "E"]),
      .element "axisDirection" [] (nl [.text "east"]),
      .element "descriptionReference" [("xlink:href", "urn:axisname")] .nil])])

/-- The north axis reference, second in document order. -/
def axisN : Node :=
  .element "axis" [] (nl [
    .element "CoordinateSystemAxis" [] (nl [
      .element "identifier" [] (nl [.text "urn:axis:n"]),
      .element "axisAbbrev" [] (nl [.text "N"]),
      .element "axisDirection" [] (nl [.text "north"]),
      .element "descriptionReference" [("xlink:href", "urn:axisname")] .nil])])

/-- A `CartesianCS` element with axis references in document order
`[E, N]`. -/
def csEl : Node :=
  .element "CartesianCS" [] (nl [
    .element "identifier" [] (nl [.text "urn:cs"]),
    .element "name" [] (nl [.text "Plane CS"]),
    axisE, axisN])

/-- The coordinate-system fixture document. -/
def csDoc : Node :=
  .element "#document" [] (nl [.element "gml:Dictionary" [] (nl [csEl, axisNameEl])])

/-- The entity loaded for `urn:cs` from `csDoc`: its `axes` list holds the
east axis (id 1) before the north axis (id 2). -/
def csEntity : Entity :=
  ⟨"CartesianCS",
   [("identifier", .str "urn:cs"), ("name", .str "Plane CS"),
    ("remarks", .none), ("anchorDefinition", .none),
    ("informationSource", .none), ("axes", .objList [1, 2]), ("type", .none)]⟩

/-- The loader state after resolving `urn:cs` from `csDoc`. -/
def csFinal : LoaderState :=
  ⟨[("urn:axisname", 0), ("urn:axis:e", 1), ("urn:axis:n", 2), ("urn:cs", 3)],
   [(0, ⟨"AxisName",
     [("identifier", .str "urn:axisname"), ("name", .str "Easting or northing"),
      ("remarks", .none), ("anchorDefinition", .none),
      ("informationSource", .none), ("description", .none)]⟩),
    (1, ⟨"CoordinateSystemAxis",
     [("identifier", .str "urn:axis:e"), ("axisAbbrev", .str "E"),
      ("axisDirection", .str "east"), ("descriptionReference", .obj 0)]⟩),
    (2, ⟨"CoordinateSystemAxis",
     [("identifier", .str "urn:axis:n"), ("axisAbbrev", .str "N"),
      ("axisDirection", .str "north"), ("descriptionReference", .obj 0)]⟩),
    (3, csEntity)],
   4⟩

/-- A two-level element whose text nodes carry boundary whitespace: the
input separating `getText` from the spec's single-trim description. -/
def nestedWsEl : Node :=
  .element "e" [] (nl [.text " a ", .element "f" [] (nl [.text " b "])])

/-! Section: Helper lemmas -/

theorem assocGet_assocSet_self {κ α : Type} [DecidableEq κ]
    (m : List (κ × α)) (k : κ) (v : α) :
    assocGet (assocSet m k v) k = Option.some v := by
  induction m with
  | nil => simp [assocSet, assocGet]
  | cons p rest ih =>
    by_cases h : p.1 = k
    · simp [assocSet, assocGet, h]
    · simpa [assocSet, assocGet, h] using ih

theorem assocGet_assocSet_ne {κ α : Type} [DecidableEq κ]
    (m : List (κ × α)) (k k2 : κ) (v : α) (h : k ≠ k2) :
    assocGet (assocSet m k v) k2 = assocGet m k2 := by
  induction m with
  | nil => simp [assocSet, assocGet, h]
  | cons p rest ih =>
    by_cases hp : p.1 = k
    · simp [assocSet, assocGet, hp, h]
    · simp only [assocSet, assocGet, if_neg hp]
      by_cases hq : p.1 = k2 <;> simp [assocGet, hq, ih]

/-! Section: C7: date coercion on `realizationEpoch` -/

/-- C7.  Assigning the string `'1936-01-01'`, the date `1936-01-01` or a
datetime at midnight of that date to the date-validated attribute
`realizationEpoch` all store the equal date value; `None` passes
unchanged; the integer `99` fails with a `TypeError`.  The attribute
routes through `_validate_date` (`event.listen(Datum.realizationEpoch,
'set', _validate_date, ...)`). -/
theorem c7_realization_epoch_date_coercion :
    applyValidators "realizationEpoch" = validate_date
    ∧ validate_date (.str "1936-01-01") = .ok (.date ⟨1936, 1, 1⟩)
    ∧ validate_date (.date ⟨1936, 1, 1⟩) = .ok (.date ⟨1936, 1, 1⟩)
    ∧ validate_date (.datetime ⟨1936, 1, 1⟩ 0 0 0) = .ok (.date ⟨1936, 1, 1⟩)
    ∧ validate_date PyVal.none = .ok PyVal.none
    ∧ validate_date (.int 99) = .error .typeError
    ∧ Entity.setAttr ⟨"VerticalDatum", []⟩ "realizationEpoch" (.str "1936-01-01")
        = .ok ⟨"VerticalDatum", [("realizationEpoch", .date ⟨1936, 1, 1⟩)]⟩ := by
  exact ⟨funext fun v => rfl, rfl, rfl, rfl, rfl, rfl, rfl⟩

/-! Section: C6: float coercion on numeric fields -/

/-- C6.  Every assignment to a float-validated attribute (the fields of
`floatFields`: `semiMajorAxis`, `semiMinorAxis`, `inverseFlattening`,
`greenwichLongitude` and the `AreaOfUse` bounding coordinates) runs
`_validate_float`: a value `float(...)` accepts (numbers and
numeric-literal strings) is stored as its float value, `None` is stored
unchanged, and any other input fails with the coercion error `float`
raises (`TypeError` for non-strings, `ValueError` for non-numeric
strings). -/
theorem c6_float_field_coercion (field : String) (v : PyVal) (e : Entity)
    (hf : field ∈ floatFields) :
    applyValidators field v = validate_float v
    ∧ (∀ q, pyFloat v = .ok q →
        e.setAttr field v = .ok ⟨e.cls, assocSet e.attrs field (.float q)⟩)
    ∧ (v = PyVal.none →
        e.setAttr field v = .ok ⟨e.cls, assocSet e.attrs field PyVal.none⟩)
    ∧ (∀ er, pyFloat v = .error er → v ≠ PyVal.none →
        e.setAttr field v = .error er) := by
  have happ : applyValidators field v = validate_float v := by
    simp [applyValidators, hf]
  refine ⟨happ, ?_, ?_, ?_⟩
  · intro q hq
    simp [Entity.setAttr, happ, validate_float, hq]
  · intro hv
    subst hv
    simp [Entity.setAttr, happ, validate_float, pyFloat]
  · intro er her hne
    have : validate_float v = .error er := by
      cases er <;> simp_all [validate_float]
    simp [Entity.setAttr, happ, this]

/-- Witness for C6 at the `Ellipsoid` field `semiMajorAxis`, the Airy 1830
semi-major axis string: the coercion stores the exact decimal value. -/
theorem c6_float_field_coercion_witness :
    applyValidators "semiMajorAxis" (.str "6377563.396")
        = validate_float (.str "6377563.396")
    ∧ (∀ q, pyFloat (.str "6377563.396") = .ok q →
        Entity.setAttr ⟨"Ellipsoid", []⟩ "semiMajorAxis" (.str "6377563.396")
          = .ok ⟨"Ellipsoid", assocSet [] "semiMajorAxis" (.float q)⟩)
    ∧ ((PyVal.str "6377563.396") = PyVal.none →
        Entity.setAttr ⟨"Ellipsoid", []⟩ "semiMajorAxis" (.str "6377563.396")
          = .ok ⟨"Ellipsoid", assocSet [] "semiMajorAxis" PyVal.none⟩)
    ∧ (∀ er, pyFloat (.str "6377563.396") = .error er →
        (PyVal.str "6377563.396") ≠ PyVal.none →
        Entity.setAttr ⟨"Ellipsoid", []⟩ "semiMajorAxis" (.str "6377563.396")
          = .error er) :=
  c6_float_field_coercion "semiMajorAxis" (.str "6377563.396") ⟨"Ellipsoid", []⟩ (by decide)

/-! Section: C10: registry facade input validation -/

/-- C10.  `Registry.__getitem__` and `Registry.__setitem__` reject every
non-string key with `TypeError` before touching the backing store (the
lookup result does not depend on the store, and the store is returned
unchanged), and `Registry.__setitem__` rejects a value that is not a
`schema.Identifier` instance with `ValueError`, leaving the store
unchanged. -/
theorem c10_registry_input_validation (key : PyVal) (value : RegValue)
    (hk : ∀ t, key ≠ PyVal.str t) :
    (∀ reg reg2 : Registry, reg.getitem key = reg2.getitem key)
    ∧ (∀ reg : Registry, reg.getitem key = .error .typeError)
    ∧ (∀ reg : Registry, reg.setitem key value = (reg, .error .typeError))
    ∧ (∀ (reg : Registry) (k : String) (v : PyVal),
        reg.setitem (.str k) (.plain v) = (reg, .error .valueError)) := by
  refine ⟨?_, ?_, ?_, fun reg k v => rfl⟩ <;>
    cases key <;> first
      | (intro reg reg2; rfl)
      | (intro reg; rfl)
      | (exact absurd rfl (hk _))

/-- Witness for C10 at the integer key `3` and a plain integer value. -/
theorem c10_registry_input_validation_witness :
    (∀ reg reg2 : Registry, reg.getitem (.int 3) = reg2.getitem (.int 3))
    ∧ (∀ reg : Registry, reg.getitem (.int 3) = .error .typeError)
    ∧ (∀ reg : Registry, reg.setitem (.int 3) (.plain (.int 0)) = (reg, .error .typeError))
    ∧ (∀ (reg : Registry) (k : String) (v : PyVal),
        reg.setitem (.str k) (.plain v) = (reg, .error .valueError)) :=
  c10_registry_input_validation (.int 3) (.plain (.int 0))
    (fun _ h => PyVal.noConfusion h)

/-! Section: C3: idempotent memoization -/

/-- A successful `resolve` leaves the memo mapping its urn to the returned
id: either it was a memo hit, or line 139 (`self.objects[key] = obj`) has
just inserted it. -/
theorem resolve_ok_memoized (xml : Node) (n : Nat) (u : String) (s s' : LoaderState)
    (i : Nat) (h : resolve xml n u s = .ok i s') :
    assocGet s'.objects u = Option.some i := by
  cases n with
  | zero => simp [resolve] at h
  | succ m =>
    simp only [resolve] at h
    rcases hm : assocGet s.objects u with _ | j
    · rcases hx : xmlLookup xml u with _ | el
      · simp [hm, hx] at h
      · rcases hle : loadElement (fun k s2 => resolve xml m k s2) m el s
            with ⟨oe, s1⟩ | ⟨e, s1⟩ | s1
        · cases oe with
          | none => simp [hm, hx, hle] at h
          | some ent =>
            simp only [hm, hx, hle, LRes.ok.injEq] at h
            obtain ⟨hi, hs⟩ := h
            subst hi
            rw [← hs]
            exact assocGet_assocSet_self s1.objects u s1.nextId
        · simp [hm, hx, hle] at h
        · simp [hm, hx, hle] at h
    · simp only [hm, LRes.ok.injEq] at h
      obtain ⟨hi, hs⟩ := h
      subst hi
      rw [← hs]
      exact hm

/-- C3.  Within one `XMLLoader`, once `resolve(u)` has succeeded with
object `i` and state `s'`, a second `resolve(u)` (with any positive
recursion budget) returns the identical object `i` and leaves the state
untouched: no new entity is allocated, so no second construction of the
entity for `u` is performed. -/
theorem c3_idempotent_memoization (xml : Node) (n m : Nat) (u : String)
    (s s' : LoaderState) (i : Nat) (h : resolve xml n u s = .ok i s') :
    resolve xml (m + 1) u s' = .ok i s' := by
  simp [resolve, resolve_ok_memoized xml n u s s' i h]

/-- Witness for C3: the `PrimeMeridian` of `testDoc` resolves to object 0
with state `pmState`, and a second resolve returns the very same object
and state. -/
theorem c3_idempotent_memoization_witness :
    resolve testDoc 5 "urn:pm" initState = .ok 0 pmState
    ∧ resolve testDoc 1 "urn:pm" pmState = .ok 0 pmState :=
  ⟨by decide,
   c3_idempotent_memoization testDoc 5 0 "urn:pm" initState pmState 0 (by decide)⟩

/-! Section: C4: the NotFound condition of `resolve` -/

/-- Dispatch on a local name with no `load...` method yields `None`
(the caught `AttributeError` of `getattr`). -/
theorem loadElement_no_method (r : String → LoaderState → LRes Nat) (fuel : Nat)
    (el : Node) (s : LoaderState) (h : hasLoadMethod el.localName = false) :
    loadElement r fuel el s = .ok Option.none s := by
  rw [loadElement.eq_def]
  split <;> simp_all [hasLoadMethod]

/-- The `Element` self-dispatch loop never finishes within any budget. -/
theorem loadElementSelfLoop_oom : ∀ (fuel : Nat) (s : LoaderState),
    loadElementSelfLoop fuel s = .oom s := by
  intro fuel
  induction fuel with
  | zero => intro s; rfl
  | succ m ih => intro s; exact ih s

/-- An element whose local name is `Element` makes `loadElement` dispatch
to itself: no recursion budget ever suffices. -/
theorem loadElement_element_tag (r : String → LoaderState → LRes Nat) (fuel : Nat)
    (el : Node) (s : LoaderState) (h : el.localName = "Element") :
    loadElement r fuel el s = .oom s := by
  rw [loadElement.eq_def, h]
  exact loadElementSelfLoop_oom fuel s

/-- An element with an empty local name dispatches to the bulk method
`load`, whose call with an element argument raises `TypeError`. -/
theorem loadElement_empty_localname (r : String → LoaderState → LRes Nat) (fuel : Nat)
    (el : Node) (s : LoaderState) (h : el.localName = "") :
    loadElement r fuel el s = .err .typeError s := by
  rw [loadElement.eq_def, h]
  rfl

/-- C4 (amended).  For a urn that is not memoized: a miss in the
identifier index raises `KeyError`, and so does an indexed element whose
local tag name finds no `load...` method under `getattr` (`hasLoadMethod`
false — note `Element` and the empty name do find methods); conversely a
successful resolve implies the urn was indexed with a tag whose method
exists.  The original claim's "otherwise it returns a constructed entity"
fails three ways: a rule can raise `KeyError` on a malformed nested
reference (see the counterexample); the tag `Element` dispatches to
`loadElement` itself and never returns within any budget; and the empty
local name dispatches to the bulk method `load` and raises `TypeError`. -/
theorem c4_notfound_condition (xml : Node) (fuel : Nat) (u : String) (s : LoaderState)
    (hmem : assocGet s.objects u = Option.none) :
    (xmlLookup xml u = Option.none → resolve xml (fuel + 1) u s = .err .keyError s)
    ∧ (∀ el, xmlLookup xml u = Option.some el → hasLoadMethod el.localName = false →
        resolve xml (fuel + 1) u s = .err .keyError s)
    ∧ (∀ i s', resolve xml (fuel + 1) u s = .ok i s' →
        ∃ el, xmlLookup xml u = Option.some el ∧ hasLoadMethod el.localName = true)
    ∧ (∀ el, xmlLookup xml u = Option.some el → el.localName = "Element" →
        resolve xml (fuel + 1) u s = .oom s)
    ∧ (∀ el, xmlLookup xml u = Option.some el → el.localName = "" →
        resolve xml (fuel + 1) u s = .err .typeError s) := by
  refine ⟨?_, ?_, ?_, ?_, ?_⟩
  · intro hx
    simp [resolve, hmem, hx]
  · intro el hx hrule
    simp [resolve, hmem, hx, loadElement_no_method _ fuel el s hrule]
  · intro i s' h
    simp only [resolve, hmem] at h
    rcases hx : xmlLookup xml u with _ | el
    · simp [hx] at h
    · refine ⟨el, rfl, ?_⟩
      by_contra hf
      simp only [hx, loadElement_no_method _ fuel el s (by simpa using hf)] at h
      simp at h
  · intro el hx hln
    simp [resolve, hmem, hx, loadElement_element_tag _ fuel el s hln]
  · intro el hx hln
    simp [resolve, hmem, hx, loadElement_empty_localname _ fuel el s hln]

/-- Witness for C4 at `testDoc` and the unmemoized urn `urn:badaxis`. -/
theorem c4_notfound_condition_witness :
    (xmlLookup testDoc "urn:badaxis" = Option.none →
        resolve testDoc 5 "urn:badaxis" initState = .err .keyError initState)
    ∧ (∀ el, xmlLookup testDoc "urn:badaxis" = Option.some el →
        hasLoadMethod el.localName = false →
        resolve testDoc 5 "urn:badaxis" initState = .err .keyError initState)
    ∧ (∀ i s', resolve testDoc 5 "urn:badaxis" initState = .ok i s' →
        ∃ el, xmlLookup testDoc "urn:badaxis" = Option.some el
          ∧ hasLoadMethod el.localName = true)
    ∧ (∀ el, xmlLookup testDoc "urn:badaxis" = Option.some el →
        el.localName = "Element" →
        resolve testDoc 5 "urn:badaxis" initState = .oom initState)
    ∧ (∀ el, xmlLookup testDoc "urn:badaxis" = Option.some el →
        el.localName = "" →
        resolve testDoc 5 "urn:badaxis" initState = .err .typeError initState) :=
  c4_notfound_condition testDoc 4 "urn:badaxis" initState rfl

/-- Counterexample to C4 as stated: `urn:badaxis` is present in the
identifier index and its tag `CoordinateSystemAxis` has a construction
rule, yet `resolve` raises `KeyError` (the rule fails on the missing
`descriptionReference` reference), so "NotFound iff absent-or-no-rule,
otherwise an entity is returned" is false. -/
theorem c4_counterexample :
    xmlLookup testDoc "urn:badaxis" = Option.some badAxisEl
    ∧ hasLoadMethod badAxisEl.localName = true
    ∧ resolve testDoc 5 "urn:badaxis" initState = .err .keyError initState :=
  ⟨rfl, by decide, by decide⟩

/-! Section: C2: malformed references and the bulk load -/

/-- The loop of `XMLLoader.load` can only fail with a non-`KeyError`
error: every `KeyError` is caught by its `try`/`except`. -/
theorem loadAllGo_no_keyError (xml : Node) (fuel : Nat) :
    ∀ (ks : List String) (s : LoaderState) (e : PyErr) (s2 : LoaderState),
      loadAllGo xml fuel ks s = .err e s2 → e ≠ .keyError := by
  intro ks
  induction ks with
  | nil => intro s e s2 h; simp [loadAllGo] at h
  | cons k rest ih =>
    intro s e s2 h
    simp only [loadAllGo] at h
    rcases hr : resolve xml fuel k s with ⟨i, s1⟩ | ⟨er, s1⟩ | s1 <;> rw [hr] at h
    · exact ih s1 e s2 h
    · cases er with
      | keyError => exact ih s1 e s2 h
      | typeError => simp only [LRes.err.injEq] at h; rw [← h.1]; simp
      | valueError => simp only [LRes.err.injEq] at h; rw [← h.1]; simp
      | indexError => simp only [LRes.err.injEq] at h; rw [← h.1]; simp
    · simp at h

/-- C2 (amended).  A missing required reference attribute (`None` passed
to `self[...]`) and a reference to a urn absent from the identifier index
both raise `KeyError`, aborting the entity under construction and leaving
the state unchanged — the field is never silently left empty; a rule such
as `loadCoordinateSystemAxis` propagates that failure to its caller.  But
`XMLLoader.load` catches `KeyError` — the same exception class `NotFound`
uses — so a malformed reference is skipped rather than aborting the bulk
load; only non-`KeyError` errors propagate out of it. -/
theorem c2_malformed_reference_propagation (xml : Node) (fuel : Nat) (s : LoaderState) :
    (resolveOpt (fun k s2 => resolve xml fuel k s2) Option.none s = .err .keyError s)
    ∧ (∀ u, assocGet s.objects u = Option.none → xmlLookup xml u = Option.none →
        resolve xml (fuel + 1) u s = .err .keyError s)
    ∧ (∀ el, getFirstChildAttributeValue el "descriptionReference" "xlink:href"
          = Option.none →
        loadCoordinateSystemAxis (fun k s2 => resolve xml fuel k s2) el s
          = .err .keyError s)
    ∧ (∀ (ks : List String) (s1 : LoaderState) (e : PyErr) (s2 : LoaderState),
        loadAllGo xml fuel ks s1 = .err e s2 → e ≠ .keyError) := by
  refine ⟨rfl, fun u hm hx => by simp [resolve, hm, hx], ?_, loadAllGo_no_keyError xml fuel⟩
  intro el hattr
  simp [loadCoordinateSystemAxis, setA, Entity.setAttr, applyValidators, floatFields,
    hattr, resolveOpt, LRes.bind]

/-- Counterexample to C2 as stated: `testDoc` holds an entity whose
required `descriptionReference` attribute is missing; resolving it raises
`KeyError`, yet the bulk `load` finishes normally (returning with the
well-formed `PrimeMeridian` loaded) instead of letting the failure
propagate and abort the bulk operation. -/
theorem c2_counterexample :
    resolve testDoc 5 "urn:badaxis" initState = .err .keyError initState
    ∧ load testDoc 5 initState = .ok () pmState := by
  exact ⟨by decide, by decide⟩

/-! Section: C5: the identifier index -/

/-- Models `(a :: l).getLast?` keeps a later element when there is one. -/
theorem getLast?_cons_of_getLast? {α : Type} (a z : α) (l : List α)
    (h : l.getLast? = Option.some z) : (a :: l).getLast? = Option.some z := by
  cases l with
  | nil => simp at h
  | cons b t => rw [List.getLast?_cons_cons]; exact h

/-- Folding `dict[urn] = parent` assignments: the dictionary holds the
value of the last assignment to each key, and falls back to the initial
dictionary for keys never assigned. -/
theorem assocGet_foldl_assocSet {α : Type} (l : List (String × α)) (k : String) :
    ∀ m0 : List (String × α),
      assocGet (l.foldl (fun m p => assocSet m p.1 p.2) m0) k
        = ((l.filter (fun p => p.1 = k)).getLast?).elim (assocGet m0 k)
            (fun p => Option.some p.2) := by
  induction l with
  | nil => intro m0; simp
  | cons p l ih =>
    intro m0
    simp only [List.foldl_cons, ih]
    by_cases hp : p.1 = k
    · subst hp
      rw [show (p :: l).filter (fun q => decide (q.1 = p.1)) =
          p :: l.filter (fun q => decide (q.1 = p.1)) from by simp]
      rcases hfl : (l.filter (fun q => decide (q.1 = p.1))).getLast? with _ | z
      · have hnil : l.filter (fun q => decide (q.1 = p.1)) = [] :=
          List.getLast?_eq_none_iff.mp hfl
        rw [hfl, hnil]
        simp [assocGet_assocSet_self]
      · rw [hfl, getLast?_cons_of_getLast? p z _ hfl]
        simp
    · rw [show (p :: l).filter (fun q => decide (q.1 = k)) =
          l.filter (fun q => decide (q.1 = k)) from by simp [hp]]
      rcases hfl : (l.filter (fun q => decide (q.1 = k))).getLast? with _ | z
      · rw [hfl]
        simp only [Option.elim]
        exact assocGet_assocSet_ne m0 p.1 k p.2 hp
      · rw [hfl]
        simp

mutual
/-- The urns the identifier scan collects under a node are the texts of
its `identifier` descendants, in document order (whatever the parent). -/
def idPairs_fst : ∀ (n : Node) (parent : Node),
    (idPairs parent n).map Prod.fst = (elemsByTag "identifier" n).map getText
  | Node.element t a kids, _ => by
    have hk := idPairsL_fst kids
    by_cases ht : t = "identifier" <;>
      simp [idPairs, elemsByTag, ht, hk]
  | Node.text _, _ => rfl
  | Node.comment _, _ => rfl

/-- The list version of `idPairs_fst`. -/
def idPairsL_fst : ∀ (cs : NodeList) (parent : Node),
    (idPairsL parent cs).map Prod.fst = (elemsByTagL "identifier" cs).map getText
  | .nil, _ => rfl
  | .cons c cs, parent => by
    simp [idPairsL, elemsByTagL, idPairs_fst c parent, idPairsL_fst cs parent]
end

/-- C5.  The identifier index: `createMapping` maps a urn to the parent
element of the LAST `identifier` element (in document order) whose text is
that urn — last write wins on duplicates — and the scanned urns are
exactly the texts of the document's `identifier` elements, in document
order (`getElementsByTagName` preorder). -/
theorem c5_identifier_index (dom : Node) (u : String) :
    assocGet (createMapping dom) u
      = ((identifierPairs dom).filter (fun p => p.1 = u)).getLast?.map Prod.snd
    ∧ (identifierPairs dom).map Prod.fst
      = (dom.getElementsByTagName "identifier").map getText := by
  constructor
  · rw [createMapping, assocGet_foldl_assocSet (identifierPairs dom) u []]
    rcases hfl : ((identifierPairs dom).filter (fun p => p.1 = u)).getLast? with _ | z <;>
      rw [hfl] <;> rfl
  · exact idPairsL_fst dom.childNodes dom

/-! Section: C9: ordered axes -/

/-- The axis loop of `loadCoordinateSystem` is exactly the sequential
resolution of the axis identifier urns in document order. -/
theorem loadAxes_eq_axisUrns (r : String → LoaderState → LRes Nat) (el : Node) :
    ∀ s : LoaderState,
      loadAxes r (el.getElementsByTagName "axis") s = resolveSeq r (axisUrns el) s := by
  rw [axisUrns]
  induction el.getElementsByTagName "axis" with
  | nil => intro s; rfl
  | cons ax rest ih =>
    intro s
    simp only [loadAxes, List.map_cons]
    rcases hh : (ax.getElementsByTagName "identifier").head? with _ | node
    · simp [hh, resolveSeq]
    · simp only [hh, Option.map_some', resolveSeq]
      congr 1
      funext i s2
      rw [ih s2]

/-- C9.  The `axes` of a loaded coordinate system preserve the document
order of the `axis` children: the loop equals resolving the axis urns in
document order, a successful `loadCoordinateSystem` stores exactly that
resolution result under `axes`, and on the concrete `CartesianCS` fixture
with axis references in order `[E, N]` the loaded entity's `axes` is
`[east axis, north axis]`, never reversed. -/
theorem c9_ordered_axes :
    (∀ (r : String → LoaderState → LRes Nat) (el : Node) (s : LoaderState),
      loadAxes r (el.getElementsByTagName "axis") s = resolveSeq r (axisUrns el) s)
    ∧ (∀ (r : String → LoaderState → LRes Nat) (cls : String) (el : Node)
        (s : LoaderState) (ent : Entity) (s' : LoaderState),
        loadCoordinateSystem r cls el s = .ok ent s' →
        ∃ ids, ent.getAttr? "axes" = Option.some (.objList ids)
          ∧ ∃ inst s1 s2, loadDictionaryEntry cls el s = .ok inst s1
              ∧ resolveSeq r (axisUrns el) s1 = .ok ids s2)
    ∧ (resolve csDoc 10 "urn:cs" initState = .ok 3 csFinal
        ∧ assocGet csFinal.heap 3 = Option.some csEntity
        ∧ csEntity.getAttr? "axes" = Option.some (.objList [1, 2])
        ∧ assocGet csFinal.objects "urn:axis:e" = Option.some 1
        ∧ assocGet csFinal.objects "urn:axis:n" = Option.some 2
        ∧ assocGet csFinal.heap 1 = Option.some ⟨"CoordinateSystemAxis",
            [("identifier", .str "urn:axis:e"), ("axisAbbrev", .str "E"),
             ("axisDirection", .str "east"), ("descriptionReference", .obj 0)]⟩
        ∧ assocGet csFinal.heap 2 = Option.some ⟨"CoordinateSystemAxis",
            [("identifier", .str "urn:axis:n"), ("axisAbbrev", .str "N"),
             ("axisDirection", .str "north"), ("descriptionReference", .obj 0)]⟩) := by
  refine ⟨fun r el s => loadAxes_eq_axisUrns r el s, ?_, by decide⟩
  intro r cls el s ent s' h
  simp only [loadCoordinateSystem] at h
  rcases hde : loadDictionaryEntry cls el s with ⟨inst, s1⟩ | ⟨e, s1⟩ | s1 <;>
    rw [hde] at h <;> simp only [LRes.bind] at h
  · rw [loadAxes_eq_axisUrns r el s1] at h
    rcases haxes : resolveSeq r (axisUrns el) s1 with ⟨ids, s2⟩ | ⟨e, s2⟩ | s2 <;>
      rw [haxes] at h <;> simp only [LRes.bind] at h
    · simp only [setA, Entity.setAttr, applyValidators, floatFields] at h
      simp only [show (("axes" : String) ∈
          ["greenwichLongitude", "westBoundLongitude", "eastBoundLongitude",
           "southBoundLatitude", "northBoundLatitude",
           "semiMajorAxis", "semiMinorAxis", "inverseFlattening"]) = False from by simp,
        show (("type" : String) ∈
          ["greenwichLongitude", "westBoundLongitude", "eastBoundLongitude",
           "southBoundLatitude", "northBoundLatitude",
           "semiMajorAxis", "semiMinorAxis", "inverseFlattening"]) = False from by simp] at h
      simp only [if_false, show ("axes" = "realizationEpoch") = False from by simp,
        show ("type" = "realizationEpoch") = False from by simp, LRes.bind] at h
      simp only [LRes.ok.injEq] at h
      refine ⟨ids, ?_, inst, s1, s2, rfl, haxes⟩
      rw [← h.1]
      simp only [Entity.getAttr?]
      rw [assocGet_assocSet_ne _ "type" "axes" _ (by simp),
        assocGet_assocSet_self]
    · simp at h
    · simp at h
  · simp at h
  · simp at h

/-! Section: C8: `getText` -/

/-- Scrubbing preserves emptiness of a child list. -/
theorem scrubL_isNil (cs : NodeList) : (scrubL cs).isNil = cs.isNil := by
  cases cs <;> rfl

mutual
/-- The text piece of a child does not depend on attributes or comment
contents. -/
def getTextPart_scrub : ∀ n : Node, getTextPart (scrub n) = getTextPart n
  | Node.element t a kids => by
    simp only [scrub, getTextPart, scrubL_isNil, getTextPartsL_scrub kids]
  | Node.text _ => rfl
  | Node.comment _ => rfl

/-- The list version of `getTextPart_scrub`. -/
def getTextPartsL_scrub : ∀ cs : NodeList, getTextPartsL (scrubL cs) = getTextPartsL cs
  | .nil => rfl
  | .cons c cs => by
    simp only [scrubL, getTextPartsL, getTextPart_scrub c, getTextPartsL_scrub cs]
end

/-- A join of empty strings is empty. -/
theorem sconcat_eq_empty (l : List String) (h : ∀ x ∈ l, x = "") : sconcat l = "" := by
  induction l with
  | nil => rfl
  | cons x t ih =>
    have hx : x = "" := h x (by simp)
    have ht : sconcat t = "" := ih (fun y hy => h y (by simp [hy]))
    subst hx
    exact ht

mutual
/-- A node without text descendants contributes only empty pieces. -/
def getTextPart_no_text : ∀ n : Node, hasText n = false →
    ∀ x ∈ getTextPart n, x = ""
  | Node.element t a kids => by
    intro h x hx
    simp only [hasText] at h
    simp only [getTextPart] at hx
    by_cases hk : kids.isNil
    · simp [hk] at hx
    · simp only [hk, if_neg, Bool.false_eq_true, not_false_eq_true, if_false,
        List.mem_singleton] at hx
      have : sconcat (getTextPartsL kids) = "" :=
        sconcat_eq_empty _ (getTextPartsL_no_text kids h)
      rw [hx, this]
      rfl
  | Node.text _ => by intro h x hx; simp [hasText] at h
  | Node.comment _ => by intro h x hx; simp [getTextPart] at hx

/-- The list version of `getTextPart_no_text`. -/
def getTextPartsL_no_text : ∀ cs : NodeList, hasTextL cs = false →
    ∀ x ∈ getTextPartsL cs, x = ""
  | .nil => by intro h x hx; simp [getTextPartsL] at hx
  | .cons c cs => by
    intro h x hx
    simp only [hasTextL, Bool.or_eq_false_iff] at h
    simp only [getTextPartsL, List.mem_append] at hx
    rcases hx with hx | hx
    · exact getTextPart_no_text c h.1 x hx
    · exact getTextPartsL_no_text cs h.2 x hx
end

/-- Stripping is idempotent at the character level. -/
theorem stripChars_idem (l : List Char) : stripChars (stripChars l) = stripChars l := by
  unfold stripChars
  set m := l.dropWhile isPySpace with hm
  have hmm : m.dropWhile isPySpace = m := by
    rw [hm]
    exact List.dropWhile_idempotent _ _
  have hpre : (m.rdropWhile isPySpace).dropWhile isPySpace = m.rdropWhile isPySpace := by
    rw [List.dropWhile_eq_self_iff]
    intro hl
    have hlen : 0 < m.length :=
      lt_of_lt_of_le hl
        (List.IsPrefix.length_le (List.rdropWhile_prefix isPySpace m))
    have hgl : (m.rdropWhile isPySpace).get ⟨0, hl⟩ = m.get ⟨0, hlen⟩ := by
      simpa [List.get_eq_getElem] using
        List.IsPrefix.getElem (List.rdropWhile_prefix isPySpace m) hl
    rw [hgl]
    exact (List.dropWhile_eq_self_iff.mp hmm) hlen
  rw [hpre]
  exact List.rdropWhile_idempotent _ _

/-- Stripping is idempotent. -/
theorem pyStrip_idem (s : String) : pyStrip (pyStrip s) = pyStrip s := by
  simp only [pyStrip]
  exact congrArg String.mk (stripChars_idem s.data)

/-- C8 (amended).  `getText` never reads attribute values or comment
contents (it is invariant under erasing both), returns the empty string on
an element without text descendants, and always returns a
whitespace-trimmed string; but the trimming is applied at every recursion
level (each nested element's contribution is stripped before joining), so
interior whitespace at child-element boundaries collapses too — on
`nestedWsEl` the result is `"a b"`, not the single-trim concatenation
`"a  b"` the original claim describes. -/
theorem c8_gettext_behaviour :
    (∀ n : Node, getText (scrub n) = getText n)
    ∧ (∀ n : Node, hasText n = false → getText n = "")
    ∧ (∀ n : Node, pyStrip (getText n) = getText n)
    ∧ getText nestedWsEl = "a b" := by
  refine ⟨?_, ?_, fun n => pyStrip_idem _, by decide⟩
  · intro n
    cases n with
    | element t a kids =>
      simp only [getText, scrub, Node.childNodes, getTextPartsL_scrub kids]
    | text d => rfl
    | comment d => rfl
  · intro n h
    have hparts : ∀ x ∈ getTextPartsL n.childNodes, x = "" := by
      cases n with
      | element t a kids =>
        simp only [hasText] at h
        exact getTextPartsL_no_text kids h
      | text d => simp [hasText] at h
      | comment d => intro x hx; simp [Node.childNodes, getTextPartsL] at hx
    rw [getText, sconcat_eq_empty _ hparts]
    rfl

/-- Counterexample to C8 as stated: on `nestedWsEl` (text `" a "` next to
a child element containing `" b "`), `getText` yields `"a b"` while the
trimmed concatenation of all descendant text nodes is `"a  b"` — the code
also trims inside each nested element, the claim's description trims only
at the ends. -/
theorem c8_counterexample :
    getText nestedWsEl = "a b"
    ∧ getTextSpec nestedWsEl = "a  b"
    ∧ getText nestedWsEl ≠ getTextSpec nestedWsEl := by
  exact ⟨by decide, by decide, by decide⟩

/-! Section: C1: reference cycles -/

/-- Running the rule for `cycElA` under any resolver reduces to resolving
`urn:b` and finishing the entity: if that nested resolution exhausts its
budget, so does the rule. -/
theorem cyc_elA_oom (r : String → LoaderState → LRes Nat) (fuel : Nat)
    (h : r "urn:b" initState = .oom initState) :
    loadElement r fuel cycElA initState = .oom initState := by
  rw [show loadElement r fuel cycElA initState
      = LRes.withSome (LRes.bind (r "urn:b" initState)
          (fun i s => setA ⟨"CoordinateSystemAxis",
            [("identifier", .str "urn:a"), ("axisAbbrev", PyVal.none),
             ("axisDirection", PyVal.none)]⟩ "descriptionReference" (.obj i) s))
      from rfl, h]
  rfl

/-- The mirror image of `cyc_elA_oom` for `cycElB`. -/
theorem cyc_elB_oom (r : String → LoaderState → LRes Nat) (fuel : Nat)
    (h : r "urn:a" initState = .oom initState) :
    loadElement r fuel cycElB initState = .oom initState := by
  rw [show loadElement r fuel cycElB initState
      = LRes.withSome (LRes.bind (r "urn:a" initState)
          (fun i s => setA ⟨"CoordinateSystemAxis",
            [("identifier", .str "urn:b"), ("axisAbbrev", PyVal.none),
             ("axisDirection", PyVal.none)]⟩ "descriptionReference" (.obj i) s))
      from rfl, h]
  rfl

/-- One lap of the cycle from A: the memo is still empty when the nested
resolve of `urn:b` starts (nothing is memoized before the rule finishes),
so fuel exhaustion below propagates unchanged. -/
theorem cyc_res_a (n : Nat) (h : resolve cycDoc n "urn:b" initState = .oom initState) :
    resolve cycDoc (n + 1) "urn:a" initState = .oom initState := by
  simp only [resolve,
    show assocGet initState.objects "urn:a" = (Option.none : Option Nat) from rfl,
    show xmlLookup cycDoc "urn:a" = Option.some cycElA from rfl]
  rw [cyc_elA_oom (fun k s2 => resolve cycDoc n k s2) n h]

/-- One lap of the cycle from B. -/
theorem cyc_res_b (n : Nat) (h : resolve cycDoc n "urn:a" initState = .oom initState) :
    resolve cycDoc (n + 1) "urn:b" initState = .oom initState := by
  simp only [resolve,
    show assocGet initState.objects "urn:b" = (Option.none : Option Nat) from rfl,
    show xmlLookup cycDoc "urn:b" = Option.some cycElB from rfl]
  rw [cyc_elB_oom (fun k s2 => resolve cycDoc n k s2) n h]

/-- On the cyclic document, `resolve` exhausts every recursion budget with
the state unchanged: neither `urn:a` nor `urn:b` is ever memoized. -/
theorem cyc_oom : ∀ n : Nat,
    resolve cycDoc n "urn:a" initState = .oom initState
    ∧ resolve cycDoc n "urn:b" initState = .oom initState := by
  intro n
  induction n with
  | zero => exact ⟨rfl, rfl⟩
  | succ m ih => exact ⟨cyc_res_a m ih.2, cyc_res_b m ih.1⟩

/-- C1 (amended).  The loader memoizes an entity only after its
construction rule has fully populated it (`self.objects[key] = obj` runs
after `loadElement` returns), so nothing breaks reference cycles: on
`cycDoc`, where A's reference field points at B and B's points back at A,
`resolve(A)` and `resolve(B)` exhaust every recursion budget, with the memo
never gaining either entity (the state is returned unchanged). -/
theorem c1_no_cycle_safety :
    (∀ n : Nat, resolve cycDoc n "urn:a" initState = .oom initState)
    ∧ (∀ n : Nat, resolve cycDoc n "urn:b" initState = .oom initState)
    ∧ getFirstChildAttributeValue cycElA "descriptionReference" "xlink:href"
        = Option.some "urn:b"
    ∧ getFirstChildAttributeValue cycElB "descriptionReference" "xlink:href"
        = Option.some "urn:a" :=
  ⟨fun n => (cyc_oom n).1, fun n => (cyc_oom n).2, rfl, rfl⟩

/-- Counterexample to C1 as stated: on the two-entity cyclic document
`cycDoc` (A holds a reference to B and B holds one back to A), `resolve(A)`
does not terminate — no recursion budget suffices — because the loader
memoizes only after the reference fields are populated, not before. -/
theorem c1_counterexample :
    xmlLookup cycDoc "urn:a" = Option.some cycElA
    ∧ getFirstChildAttributeValue cycElA "descriptionReference" "xlink:href"
        = Option.some "urn:b"
    ∧ xmlLookup cycDoc "urn:b" = Option.some cycElB
    ∧ getFirstChildAttributeValue cycElB "descriptionReference" "xlink:href"
        = Option.some "urn:a"
    ∧ ¬ ∃ (n i : Nat) (s' : LoaderState),
        resolve cycDoc n "urn:a" initState = .ok i s' := by
  refine ⟨rfl, rfl, rfl, rfl, ?_⟩
  rintro ⟨n, i, s', h⟩
  rw [(cyc_oom n).1] at h
  exact LRes.noConfusion h

end EPSG
